import Mathlib

/-!
Verification development for the Ansible SharePoint module
(`library/sharepoint.py`).

The module's `main()` is embedded shallowly: the HTTP library and the local
filesystem are oracles supplied through a `World` record, every
`module.exit_json` / `module.fail_json` call terminates the run with a
`ModuleResult`, and an uncaught Python exception terminates the run with a
`PyExc` value.  `runModule` records, besides the terminal outcome, the list
of operation HTTP requests issued (the token request is separate, fixed and
always first) and the final local filesystem.
-/

namespace Sharepoint

/-- The seven operation kinds of the `method` module parameter. -/
inductive Method
  | put
  | get
  | metadata
  | delete
  | list
  | mkdir
  | rmdir
deriving DecidableEq

/-- Parsed JSON values, as produced by `json.loads` / `response.json()`. -/
inductive Json
  | str : String → Json
  | num : Int → Json
  | bool : Bool → Json
  | null : Json
  | arr : List Json → Json
  | obj : List (String × Json) → Json

/-- Python exceptions that the embedded code can raise and leave uncaught. -/
inductive PyExc
  | keyError (k : String)
  | nameError (v : String)
  | typeError
  | permissionError (path : String)
deriving DecidableEq

/-- The slice of a `requests` response object the module reads: `ok`,
`status_code`, `text`, `.json()` (modelled as an already-parsed oracle
field) and `.content` (raw bytes). -/
structure HttpResponse where
  ok : Bool
  status_code : Nat
  text : String
  json : Json
  content : List Nat

inductive HttpVerb
  | get
  | post
deriving DecidableEq

/-- Request bodies: none, raw file bytes (`put`), or `json.dumps(d)` of a
dict (`mkdir`); the dict is kept structured since the serialized string is
determined by it. -/
inductive Body
  | empty
  | bytes (bs : List Nat)
  | jsonData (j : Json)

structure HttpRequest where
  verb : HttpVerb
  url : String
  headers : List (String × String)
  body : Body

/-- The module parameters after AnsibleModule parsing (argument-spec
defaults such as `local_file_path = os.getcwd()` already applied by the
host, per the spec's §6 external-interface split). -/
structure Params where
  method : Method
  local_file_path : String
  local_file_name : Option String
  remote_file_path : String
  remote_file_name : Option String
  client_id : String
  client_secret : String
  tenant_id : String
  tenant_name : String
  site_name : String
  resource : Option String
  grant_type : String

/-- Outcome of `open(path, "wb")`: `notFound` models `FileNotFoundError`
(e.g. the directory does not exist), `permission` models `PermissionError`
(e.g. the directory is unwritable). -/
inductive WriteErr
  | notFound
  | permission
deriving DecidableEq

/-- The external world: the token-endpoint response, the operation-endpoint
oracle, the local filesystem (path to byte content), and the outcome of
opening a path for writing. -/
structure World where
  tokenResponse : HttpResponse
  remote : HttpRequest → HttpResponse
  fs : List (String × List Nat)
  writeErr : String → Option WriteErr

/-- One entry of a `list` result: the dict built at lines 406-414 of the
source, with `Kind` the loop tag and the other four fields copied from the
server's JSON entry. -/
structure RemoteEntry where
  Kind : String
  Name : Json
  ServerRelativeUrl : Json
  TimeCreated : Json
  TimeLastModified : Json

/-- The terminal report of a run: `failed := false` for `exit_json`,
`failed := true` for `fail_json`; the optional fields are exactly the
keyword arguments the source passes at the corresponding call site. -/
structure ModuleResult where
  failed : Bool
  changed : Bool := false
  msg : Option String := none
  response : Option Json := none
  responseText : Option String := none
  code : Option Nat := none
  metadata : Option (List Nat) := none
  listing : Option (List RemoteEntry) := none
  command : Option String := none
  data : Option Json := none

/-- Result of a whole run: terminal outcome (or uncaught exception), the
operation HTTP requests issued in order, and the final local filesystem. -/
structure RunResult where
  outcome : Except PyExc ModuleResult
  calls : List HttpRequest
  fs : List (String × List Nat)

/-- Python string formatting of an optional string: the format call prints
the word None for the missing value. -/
def pystr : Option String → String
  | some s => s
  | none => "None"

/-- Model of os.path.join(a, b) for the cases arising here (`b` absolute wins,
otherwise a single separator is inserted unless `a` already ends in one);
the leading/trailing-slash tests are spelled over the character list so
that they reduce definitionally. -/
def osPathJoin (a b : String) : String :=
  if b.data.head? = some '/' then b
  else if a = "" ∨ a.data.getLast? = some '/' then a ++ b
  else a ++ "/" ++ b

/-- Lookup of a local file's bytes, `none` when `open(path, "rb")` would
raise `FileNotFoundError`. -/
def fsLookup : List (String × List Nat) → String → Option (List Nat)
  | [], _ => none
  | (p, bs) :: rest, q => if p = q then some bs else fsLookup rest q

/-- Writing a file: open for writing then write all bytes, overwrite or create. -/
def fsWrite : List (String × List Nat) → String → List Nat → List (String × List Nat)
  | [], p, bs => [(p, bs)]
  | (q, old) :: rest, p, bs =>
      if q = p then (q, bs) :: rest else (q, old) :: fsWrite rest p bs

/-- Python dict update `h[k] = v` on an insertion-ordered string dict. -/
def setHeader : List (String × String) → String → String → List (String × String)
  | [], k, v => [(k, v)]
  | (k0, v0) :: rest, k, v =>
      if k0 = k then (k0, v) :: rest else (k0, v0) :: setHeader rest k v

/-- Dict lookup `h[k]` returning `none` when the key is absent. -/
def getHeader : List (String × String) → String → Option String
  | [], _ => none
  | (k0, v0) :: rest, k => if k0 = k then some v0 else getHeader rest k

def objLookup : List (String × Json) → String → Option Json
  | [], _ => none
  | (k0, v) :: rest, k => if k0 = k then some v else objLookup rest k

/-- Python subscription `j[k]` on a parsed JSON value: `KeyError` when the
key is missing from a dict, `TypeError` when the value is not a dict. -/
def jsonIndex (j : Json) (k : String) : Except PyExc Json :=
  match j with
  | Json.obj fields =>
      match objLookup fields k with
      | some v => Except.ok v
      | none => Except.error (PyExc.keyError k)
  | _ => Except.error PyExc.typeError

/-- Python string formatting of a parsed JSON value.  Only the string case is ever
exercised by the claims (the bearer token); the printed forms of the other
cases are placeholders. -/
def pyFormatJson : Json → String
  | Json.str s => s
  | Json.num n => toString n
  | Json.bool b => if b then "True" else "False"
  | Json.null => "None"
  | Json.arr _ => "<list>"
  | Json.obj _ => "<dict>"

/-- The default `resource` built at lines 261-265 when none is supplied. -/
def defaultResource (tenant_name tenant_id : String) : String :=
  "00000003-0000-0ff1-ce00-000000000000/" ++ tenant_name ++ ".sharepoint.com@"
    ++ tenant_id

/-- The parameter-defaulting prologue of `main()` (lines 249-266):
for `get` the local name defaults to the remote name, for `put` the remote
name defaults to the local name, and `resource` defaults per tenant. -/
def applyDefaults (p : Params) : Params :=
  { p with
    local_file_name :=
      if p.local_file_name = none ∧ p.method = Method.get then
        p.remote_file_name
      else p.local_file_name,
    remote_file_name :=
      if p.remote_file_name = none ∧ p.method = Method.put then
        p.local_file_name
      else p.remote_file_name,
    resource :=
      some (match p.resource with
            | some r => r
            | none => defaultResource p.tenant_name p.tenant_id) }

/-- The token endpoint URL (line 277). -/
def urlGetToken (p : Params) : String :=
  "https://accounts.accesscontrol.windows.net/" ++ p.tenant_id
    ++ "/tokens/oAuth/2"

/-- The credential payload for the token request (lines 269-274). -/
def tokenPayload (p : Params) : List (String × String) :=
  [("grant_type", p.grant_type),
   ("client_id", p.client_id),
   ("client_secret", p.client_secret),
   ("resource", pystr p.resource)]

/-- The base URL shared by every operation branch: https scheme, the
tenant host, then the /sites/ segment and the site name. -/
def siteUrl (p : Params) : String :=
  "https://" ++ p.tenant_name ++ ".sharepoint.com/sites/" ++ p.site_name

/-- The common headers built after a successful token exchange
(lines 287-291). -/
def baseHeaders (token : String) : List (String × String) :=
  [("Authorization", "Bearer " ++ token),
   ("Content-Type", "application/json;odata=verbose"),
   ("Accept", "application/json;odata=verbose")]

/-- The ODATA_SELECTORS dict lookup (lines 185-188); only `get` and `metadata`
reach the lookup, the catch-all is never exercised. -/
def odataSelector : Method → String
  | Method.get => "$value"
  | Method.metadata => "ListItemAllFields"
  | _ => ""

/-- The `put` command string (lines 302-304); note it has no leading slash
and keeps `remote_file_path`'s own leading slash, doubling the separator. -/
def putCommand (p : Params) : String :=
  "_api/web/GetFolderByServerRelativeURL('/sites/" ++ p.site_name ++ "/"
    ++ p.remote_file_path ++ "')/Files/add(url='"
    ++ pystr p.remote_file_name ++ "',overwrite=true)"

/-- The `get`/`metadata` command string (lines 332-336). -/
def getFileCommand (p : Params) : String :=
  "/_api/web/GetFileByServerRelativeUrl('/sites/" ++ p.site_name ++ "/"
    ++ p.remote_file_path ++ "/" ++ pystr p.remote_file_name ++ "')/"
    ++ odataSelector p.method

/-- The `delete` command string (lines 372-374). -/
def deleteCommand (p : Params) : String :=
  "/_api/web/GetFileByServerRelativeUrl('/sites/" ++ p.site_name ++ "/"
    ++ p.remote_file_path ++ "/" ++ pystr p.remote_file_name ++ "')"

/-- The `list` command string for one loop iteration (lines 397-401),
`kind` being `"files"` or `"folders"`. -/
def listCommand (p : Params) (kind : String) : String :=
  "/_api/web/GetFolderByServerRelativeUrl('" ++ p.remote_file_path ++ "')/"
    ++ kind

/-- The `rmdir` command string (lines 463-465). -/
def rmdirCommand (p : Params) : String :=
  "/_api/web/GetFolderByServerRelativeUrl('/sites/" ++ p.site_name ++ "/"
    ++ p.remote_file_path ++ "')"

/-- The `put` request: POST of the file bytes to `url/command` (306-308). -/
def putRequest (p : Params) (headers : List (String × String))
    (bs : List Nat) : HttpRequest :=
  ⟨HttpVerb.post, siteUrl p ++ "/" ++ putCommand p, headers, Body.bytes bs⟩

/-- The `get`/`metadata` request: GET on `url/command` (line 337). -/
def getMetaRequest (p : Params) (headers : List (String × String)) :
    HttpRequest :=
  ⟨HttpVerb.get, siteUrl p ++ "/" ++ getFileCommand p, headers, Body.empty⟩

/-- The `delete` request: POST on `url/command` (line 376). -/
def deleteRequest (p : Params) (headers : List (String × String)) :
    HttpRequest :=
  ⟨HttpVerb.post, siteUrl p ++ "/" ++ deleteCommand p, headers, Body.empty⟩

/-- One `list` request: GET on `url/command` (line 403). -/
def listRequest (p : Params) (headers : List (String × String))
    (kind : String) : HttpRequest :=
  ⟨HttpVerb.get, siteUrl p ++ "/" ++ listCommand p kind, headers, Body.empty⟩

/-- The `mkdir` payload dict (lines 435-439). -/
def mkdirData (p : Params) : Json :=
  Json.obj [("__metadata", Json.obj [("type", Json.str "SP.Folder")]),
            ("ServerRelativeUrl",
             Json.str ("/sites/" ++ p.site_name ++ p.remote_file_path))]

/-- The `mkdir` request: POST of `json.dumps(data)` to `url//_api/web/folders`
(lines 433-443; the command's leading slash doubles the separator). -/
def mkdirRequest (p : Params) (headers : List (String × String)) :
    HttpRequest :=
  ⟨HttpVerb.post, siteUrl p ++ "/" ++ "/_api/web/folders", headers,
   Body.jsonData (mkdirData p)⟩

/-- The `rmdir` request: POST on `url/command` (line 467). -/
def rmdirRequest (p : Params) (headers : List (String × String)) :
    HttpRequest :=
  ⟨HttpVerb.post, siteUrl p ++ "/" ++ rmdirCommand p, headers, Body.empty⟩

/-- Building one dict of the `list` loop body (lines 405-414): each field
access `k[...]` can raise `KeyError`/`TypeError`. -/
def parseEntry (kind : String) (k : Json) : Except PyExc RemoteEntry := do
  let n ← jsonIndex k "Name"
  let s ← jsonIndex k "ServerRelativeUrl"
  let tc ← jsonIndex k "TimeCreated"
  let tm ← jsonIndex k "TimeLastModified"
  Except.ok ⟨kind, n, s, tc, tm⟩

/-- Iteration over the value list of the parsed response, with the
per-entry dict building;
iterating a non-array value is approximated as `TypeError`. -/
def parseEntries (kind : String) (j : Json) :
    Except PyExc (List RemoteEntry) := do
  let v ← jsonIndex j "value"
  match v with
  | Json.arr ks => ks.mapM (parseEntry kind)
  | _ => Except.error PyExc.typeError

/-- The `put` branch (lines 293-328).  `os.path.join` with a `None` name
raises `TypeError`; a missing local file raises `FileNotFoundError`, which
the branch catches and turns into the "is missing" failure before any HTTP
request is made. -/
def runPut (p : Params) (w : World) (headers : List (String × String)) :
    RunResult :=
  match p.local_file_name with
  | none => ⟨Except.error PyExc.typeError, [], w.fs⟩
  | some lname =>
    let full := osPathJoin p.local_file_path lname
    match fsLookup w.fs full with
    | none =>
        ⟨Except.ok { failed := true,
                     msg := some ("The file " ++ full ++ " is missing.") },
         [], w.fs⟩
    | some bs =>
        let req := putRequest p headers bs
        let resp := w.remote req
        if resp.ok then
          ⟨Except.ok { failed := false, changed := true,
                       response := some resp.json,
                       code := some resp.status_code },
           [req], w.fs⟩
        else
          ⟨Except.ok { failed := true, msg := some "Something went wrong...",
                       response := some resp.json,
                       code := some resp.status_code },
           [req], w.fs⟩

/-- The `get`/`metadata` branch (lines 330-366).  The `try` around the
local write catches only `FileNotFoundError`; a `PermissionError` (e.g.
unwritable directory) escapes uncaught. -/
def runGetMeta (p : Params) (w : World) (headers : List (String × String)) :
    RunResult :=
  let req := getMetaRequest p headers
  let resp := w.remote req
  if resp.ok then
    if p.method = Method.get then
      match p.local_file_name with
      | none => ⟨Except.error PyExc.typeError, [req], w.fs⟩
      | some lname =>
        let full := osPathJoin p.local_file_path lname
        match w.writeErr full with
        | some WriteErr.notFound =>
            ⟨Except.ok { failed := true,
                         msg := some ("The file " ++ full
                                        ++ " is missing.") },
             [req], w.fs⟩
        | some WriteErr.permission =>
            ⟨Except.error (PyExc.permissionError full), [req], w.fs⟩
        | none =>
            ⟨Except.ok { failed := false, changed := true,
                         code := some resp.status_code },
             [req], fsWrite w.fs full resp.content⟩
    else
      ⟨Except.ok { failed := false, changed := true,
                   code := some resp.status_code,
                   metadata := some resp.content },
       [req], w.fs⟩
  else
    ⟨Except.ok { failed := true, msg := some "Something went wrong...",
                 response := some resp.json,
                 code := some resp.status_code },
     [req], w.fs⟩

/-- The `delete` branch (lines 368-389): POST with the `X-HTTP-Method:
DELETE` override header added to the common headers. -/
def runDelete (p : Params) (w : World)
    (headers0 : List (String × String)) : RunResult :=
  let headers := setHeader headers0 "X-HTTP-Method" "DELETE"
  let req := deleteRequest p headers
  let resp := w.remote req
  if resp.ok then
    ⟨Except.ok { failed := false, changed := true,
                 code := some resp.status_code },
     [req], w.fs⟩
  else
    ⟨Except.ok { failed := true, msg := some "Something went wrong...",
                 response := some resp.json,
                 code := some resp.status_code },
     [req], w.fs⟩

/-- The `list` branch (lines 391-429): the `Accept` header is switched to
`nometadata`, then the files call and the folders call run in order; the
loop's `fail_json` terminates the run at the first failing call, and the
final `exit_json` reports the last response's status and command. -/
def runList (p : Params) (w : World)
    (headers0 : List (String × String)) : RunResult :=
  let headers := setHeader headers0 "Accept" "application/json;odata=nometadata"
  let reqF := listRequest p headers "files"
  let respF := w.remote reqF
  if respF.ok then
    match parseEntries "files" respF.json with
    | Except.error e => ⟨Except.error e, [reqF], w.fs⟩
    | Except.ok entF =>
      let reqD := listRequest p headers "folders"
      let respD := w.remote reqD
      if respD.ok then
        match parseEntries "folders" respD.json with
        | Except.error e => ⟨Except.error e, [reqF, reqD], w.fs⟩
        | Except.ok entD =>
            ⟨Except.ok { failed := false, changed := true,
                         code := some respD.status_code,
                         command := some (listCommand p "folders"),
                         listing := some (entF ++ entD) },
             [reqF, reqD], w.fs⟩
      else
        ⟨Except.ok { failed := true, msg := some "Something went wrong...",
                     response := some respD.json,
                     code := some respD.status_code,
                     command := some (listCommand p "folders") },
         [reqF, reqD], w.fs⟩
  else
    ⟨Except.ok { failed := true, msg := some "Something went wrong...",
                 response := some respF.json,
                 code := some respF.status_code,
                 command := some (listCommand p "files") },
     [reqF], w.fs⟩

/-- The `mkdir` branch (lines 431-457); its failure report includes the
payload dict under `data`. -/
def runMkdir (p : Params) (w : World) (headers : List (String × String)) :
    RunResult :=
  let req := mkdirRequest p headers
  let resp := w.remote req
  if resp.ok then
    ⟨Except.ok { failed := false, changed := true,
                 code := some resp.status_code },
     [req], w.fs⟩
  else
    ⟨Except.ok { failed := true, msg := some "Something went wrong...",
                 response := some resp.json, data := some (mkdirData p),
                 code := some resp.status_code },
     [req], w.fs⟩

/-- The `rmdir` branch (lines 459-481).  The failure call at line 478
passes `data=data`, but `data` is only ever assigned inside the `mkdir`
branch, which cannot have run: evaluating the argument raises an uncaught
`NameError` (`UnboundLocalError`). -/
def runRmdir (p : Params) (w : World)
    (headers0 : List (String × String)) : RunResult :=
  let headers := setHeader headers0 "X-HTTP-Method" "DELETE"
  let req := rmdirRequest p headers
  let resp := w.remote req
  if resp.ok then
    ⟨Except.ok { failed := false, changed := true,
                 code := some resp.status_code },
     [req], w.fs⟩
  else
    ⟨Except.error (PyExc.nameError "data"), [req], w.fs⟩

/-- The failure message of the auth `fail_json` (lines 484-489). -/
def authFailMsg (code : Nat) : String :=
  "The OAuth 2.0 authorization failed (code: " ++ toString code ++ ")"

/-- The whole of `main()` after AnsibleModule parsing: parameter
defaulting, the token exchange (a failing token response terminates with
the auth failure before any operation request; a successful one is parsed
and `["access_token"]` raises `KeyError` when the field is absent), then
dispatch on `method`.  The source's sequential `if` chain is a dispatch
because every branch terminates the process. -/
def runModule (p0 : Params) (w : World) : RunResult :=
  let p := applyDefaults p0
  let tokenResp := w.tokenResponse
  if tokenResp.ok then
    match jsonIndex tokenResp.json "access_token" with
    | Except.error e => ⟨Except.error e, [], w.fs⟩
    | Except.ok tokenJson =>
      let headers := baseHeaders (pyFormatJson tokenJson)
      match p.method with
      | Method.put => runPut p w headers
      | Method.get => runGetMeta p w headers
      | Method.metadata => runGetMeta p w headers
      | Method.delete => runDelete p w headers
      | Method.list => runList p w headers
      | Method.mkdir => runMkdir p w headers
      | Method.rmdir => runRmdir p w headers
  else
    ⟨Except.ok { failed := true,
                 msg := some (authFailMsg tokenResp.status_code),
                 responseText := some tokenResp.text },
     [], w.fs⟩

/-! ### Concrete sample data for witnesses and counterexamples -/

/-- Sample parameters, matching the documentation example of the module. -/
def sampleParams : Params :=
  { method := Method.put,
    local_file_path := "/tmp",
    local_file_name := some "test.txt",
    remote_file_path := "/Shared Documents/Dev",
    remote_file_name := some "test.txt",
    client_id := "id",
    client_secret := "secret",
    tenant_id := "tid",
    tenant_name := "mycompany",
    site_name := "Ops",
    resource := none,
    grant_type := "client_credentials" }

/-- A successful token response whose body carries an access token. -/
def okTokenResponse : HttpResponse :=
  { ok := true, status_code := 200, text := "token-body",
    json := Json.obj [("access_token", Json.str "TOKEN")], content := [] }

/-- A failing token response. -/
def badTokenResponse : HttpResponse :=
  { ok := false, status_code := 401, text := "denied", json := Json.null,
    content := [] }

/-- A successful token response whose JSON body has no access_token. -/
def noFieldTokenResponse : HttpResponse :=
  { ok := true, status_code := 200, text := "empty-object",
    json := Json.obj [], content := [] }

/-- A successful operation response with an empty value list. -/
def okResponse : HttpResponse :=
  { ok := true, status_code := 200, text := "ok-body",
    json := Json.obj [("value", Json.arr [])], content := [7, 8, 9] }

/-- A failing operation response. -/
def badResponse : HttpResponse :=
  { ok := false, status_code := 404, text := "not-found",
    json := Json.str "err", content := [] }

/-- World whose token endpoint rejects the credentials. -/
def authFailWorld : World :=
  { tokenResponse := badTokenResponse, remote := fun _ => okResponse,
    fs := [], writeErr := fun _ => none }

/-- World whose token endpoint answers 200 without an access_token field. -/
def noFieldTokenWorld : World :=
  { tokenResponse := noFieldTokenResponse, remote := fun _ => okResponse,
    fs := [], writeErr := fun _ => none }

/-- World with good auth where every operation call fails. -/
def opFailWorld : World :=
  { tokenResponse := okTokenResponse, remote := fun _ => badResponse,
    fs := [], writeErr := fun _ => none }

/-- World with good auth where every operation call succeeds; the sample
local file exists with bytes `[104, 105]`. -/
def opOkWorld : World :=
  { tokenResponse := okTokenResponse, remote := fun _ => okResponse,
    fs := [("/tmp/test.txt", [104, 105])], writeErr := fun _ => none }

def rmdirParams : Params := { sampleParams with method := Method.rmdir }

def listParams : Params := { sampleParams with method := Method.list }

def getParams : Params := { sampleParams with method := Method.get }

def deleteParams : Params := { sampleParams with method := Method.delete }

/-! ### Helper lemmas -/

@[simp] theorem applyDefaults_method (p : Params) :
    (applyDefaults p).method = p.method := rfl

@[simp] theorem applyDefaults_local_file_path (p : Params) :
    (applyDefaults p).local_file_path = p.local_file_path := rfl

theorem applyDefaults_local_file_name_of_some (p : Params) (lname : String)
    (hn : p.local_file_name = some lname) :
    (applyDefaults p).local_file_name = some lname := by
  simp [applyDefaults, hn]

/-- After the `X-HTTP-Method` override, the header dict answers `DELETE`. -/
theorem getHeader_override (t : String) :
    getHeader (setHeader (baseHeaders t) "X-HTTP-Method" "DELETE")
      "X-HTTP-Method" = some "DELETE" := rfl

/-- The common headers carry no `X-HTTP-Method` entry. -/
theorem getHeader_base (t : String) :
    getHeader (baseHeaders t) "X-HTTP-Method" = none := rfl

/-- Writing a file then looking it up returns the written bytes. -/
theorem fsLookup_fsWrite (fs : List (String × List Nat)) (p : String)
    (bs : List Nat) : fsLookup (fsWrite fs p bs) p = some bs := by
  induction fs with
  | nil => simp [fsWrite, fsLookup]
  | cons hd tl ih =>
      obtain ⟨q, old⟩ := hd
      by_cases h : q = p
      · simp [fsWrite, fsLookup, h]
      · simp [fsWrite, fsLookup, h, ih]

/-! ### Claims -/

/-- C1: for every run, if the token-endpoint response is a failure, the run
terminates with the authentication-failure result carrying the HTTP status
code (in its message) and the raw response body, and no operation HTTP
call is ever issued. -/
theorem auth_failure_aborts (p : Params) (w : World)
    (h : w.tokenResponse.ok = false) :
    runModule p w =
      ⟨Except.ok { failed := true,
                   msg := some (authFailMsg w.tokenResponse.status_code),
                   responseText := some w.tokenResponse.text },
       [], w.fs⟩ := by
  simp [runModule, h]

/-- Witness for C1 at concrete credentials and a 401 token endpoint. -/
theorem auth_failure_aborts_witness :
    runModule sampleParams authFailWorld =
      ⟨Except.ok { failed := true,
                   msg := some (authFailMsg
                     authFailWorld.tokenResponse.status_code),
                   responseText := some authFailWorld.tokenResponse.text },
       [], authFailWorld.fs⟩ :=
  auth_failure_aborts sampleParams authFailWorld rfl

/-- C3 (code bug): an `rmdir` whose operation call fails does not surface a
failure result at all — evaluating the `data=data` argument of the failure
report raises an uncaught `NameError`, because `data` is only assigned in
the `mkdir` branch. -/
theorem rmdir_failure_uncaught_name_error :
    (runModule rmdirParams opFailWorld).outcome =
        Except.error (PyExc.nameError "data") ∧
      (runModule rmdirParams opFailWorld).calls.length = 1 :=
  ⟨rfl, rfl⟩

/-- C4: with site_name "Ops", remote_file_path "/Shared Documents/Dev" and
remote_file_name "test.txt", the single `put` request goes to exactly the
URL of the operation table, doubled slash included. -/
theorem put_url_exact :
    (runModule sampleParams opOkWorld).calls.map HttpRequest.url =
      ["https://mycompany.sharepoint.com/sites/Ops/_api/web/GetFolderByServerRelativeURL('/sites/Ops//Shared Documents/Dev')/Files/add(url='test.txt',overwrite=true)"] := rfl

/-- C5 (code bug): a successful token response whose JSON body lacks
`access_token` makes the run terminate with an uncaught `KeyError`, not a
malformed-response failure result; no operation call is issued. -/
theorem missing_access_token_key_error :
    (runModule sampleParams noFieldTokenWorld).outcome =
        Except.error (PyExc.keyError "access_token") ∧
      (runModule sampleParams noFieldTokenWorld).calls = [] :=
  ⟨rfl, rfl⟩

/-- C6: a `put` whose resolved local source file does not exist terminates
with the "file is missing" failure naming the resolved full path, and no
operation HTTP request is issued. -/
theorem put_missing_local_file (p : Params) (w : World) (tj : Json)
    (lname : String)
    (hm : p.method = Method.put)
    (h1 : w.tokenResponse.ok = true)
    (h2 : jsonIndex w.tokenResponse.json "access_token" = Except.ok tj)
    (hn : p.local_file_name = some lname)
    (hmiss : fsLookup w.fs (osPathJoin p.local_file_path lname) = none) :
    runModule p w =
      ⟨Except.ok { failed := true,
                   msg := some ("The file "
                     ++ osPathJoin p.local_file_path lname
                     ++ " is missing.") },
       [], w.fs⟩ := by
  have hd := applyDefaults_local_file_name_of_some p lname hn
  simp [runModule, h1, h2, hm, runPut, hd, hmiss]

/-- Witness for C6: the sample `put` with an empty local filesystem. -/
theorem put_missing_local_file_witness :
    runModule sampleParams opFailWorld =
      ⟨Except.ok { failed := true,
                   msg := some ("The file "
                     ++ osPathJoin sampleParams.local_file_path "test.txt"
                     ++ " is missing.") },
       [], opFailWorld.fs⟩ :=
  put_missing_local_file sampleParams opFailWorld (Json.str "TOKEN")
    "test.txt" rfl rfl rfl rfl rfl

/-- World where the operation call succeeds but opening the local target
for writing raises `PermissionError` (unwritable directory). -/
def permDenyWorld : World :=
  { tokenResponse := okTokenResponse, remote := fun _ => okResponse,
    fs := [], writeErr := fun _ => some WriteErr.permission }

/-- World where opening the local target for writing raises
`FileNotFoundError` (target directory does not exist). -/
def writeNotFoundWorld : World :=
  { tokenResponse := okTokenResponse, remote := fun _ => okResponse,
    fs := [], writeErr := fun _ => some WriteErr.notFound }

/-- C7 counterexample: a `get` whose remote call succeeds but whose local
write fails with `PermissionError` (unwritable target directory) ends in an
uncaught exception, not a reported failure — the `except` clause catches
only `FileNotFoundError`. -/
theorem get_unwritable_dir_crash :
    (runModule getParams permDenyWorld).outcome =
      Except.error (PyExc.permissionError "/tmp/test.txt") := rfl

/-- C7 amended: a `get` whose remote call succeeds and whose local write
fails with `FileNotFoundError` (e.g. missing target directory) terminates
with the "file is missing" failure naming the resolved full path. -/
theorem get_write_not_found_reported (p : Params) (w : World) (tj : Json)
    (lname : String)
    (hm : p.method = Method.get)
    (h1 : w.tokenResponse.ok = true)
    (h2 : jsonIndex w.tokenResponse.json "access_token" = Except.ok tj)
    (hn : p.local_file_name = some lname)
    (hok : (w.remote (getMetaRequest (applyDefaults p)
              (baseHeaders (pyFormatJson tj)))).ok = true)
    (hw : w.writeErr (osPathJoin p.local_file_path lname) =
            some WriteErr.notFound) :
    runModule p w =
      ⟨Except.ok { failed := true,
                   msg := some ("The file "
                     ++ osPathJoin p.local_file_path lname
                     ++ " is missing.") },
       [getMetaRequest (applyDefaults p) (baseHeaders (pyFormatJson tj))],
       w.fs⟩ := by
  have hd := applyDefaults_local_file_name_of_some p lname hn
  simp [runModule, h1, h2, hm, runGetMeta, hok, hd, hw]

/-- Witness for the amended C7 at a concrete `get` run. -/
theorem get_write_not_found_reported_witness :
    runModule getParams writeNotFoundWorld =
      ⟨Except.ok { failed := true,
                   msg := some ("The file "
                     ++ osPathJoin getParams.local_file_path "test.txt"
                     ++ " is missing.") },
       [getMetaRequest (applyDefaults getParams)
          (baseHeaders (pyFormatJson (Json.str "TOKEN")))],
       writeNotFoundWorld.fs⟩ :=
  get_write_not_found_reported getParams writeNotFoundWorld
    (Json.str "TOKEN") "test.txt" rfl rfl rfl rfl rfl rfl

/-- The `list` headers: common headers with `Accept` switched to
`nometadata` (line 392). -/
def listHeaders (tj : Json) : List (String × String) :=
  setHeader (baseHeaders (pyFormatJson tj)) "Accept"
    "application/json;odata=nometadata"

/-- The files/folders request a `list` run issues for a given token. -/
def listReqOf (p : Params) (tj : Json) (kind : String) : HttpRequest :=
  listRequest (applyDefaults p) (listHeaders tj) kind

/-- C2 counterexample: when the files sub-call fails, the run terminates
after a single GET — "exactly two GET calls for every `list` request" is
false. -/
theorem list_single_call_example :
    listParams.method = Method.list ∧
      (runModule listParams opFailWorld).calls.length = 1 :=
  ⟨rfl, rfl⟩

/-- C2 amended: a `list` run issues at most two GETs — files first, then
folders only if the files call succeeded.  When both calls succeed the
result is the success report whose listing is the files entries followed by
the folders entries, each in server order; when either call fails the run
terminates with a failure report carrying no listing at all. -/
theorem list_calls_spec (p : Params) (w : World) (tj : Json)
    (hm : p.method = Method.list)
    (h1 : w.tokenResponse.ok = true)
    (h2 : jsonIndex w.tokenResponse.json "access_token" = Except.ok tj) :
    ((w.remote (listReqOf p tj "files")).ok = false →
       runModule p w =
         ⟨Except.ok { failed := true,
                      msg := some "Something went wrong...",
                      response := some (w.remote (listReqOf p tj "files")).json,
                      code := some (w.remote (listReqOf p tj "files")).status_code,
                      command := some (listCommand (applyDefaults p) "files") },
          [listReqOf p tj "files"], w.fs⟩) ∧
    (∀ entF, (w.remote (listReqOf p tj "files")).ok = true →
       parseEntries "files" (w.remote (listReqOf p tj "files")).json =
         Except.ok entF →
       (w.remote (listReqOf p tj "folders")).ok = false →
       runModule p w =
         ⟨Except.ok { failed := true,
                      msg := some "Something went wrong...",
                      response := some (w.remote (listReqOf p tj "folders")).json,
                      code := some (w.remote (listReqOf p tj "folders")).status_code,
                      command := some (listCommand (applyDefaults p) "folders") },
          [listReqOf p tj "files", listReqOf p tj "folders"], w.fs⟩) ∧
    (∀ entF entD, (w.remote (listReqOf p tj "files")).ok = true →
       parseEntries "files" (w.remote (listReqOf p tj "files")).json =
         Except.ok entF →
       (w.remote (listReqOf p tj "folders")).ok = true →
       parseEntries "folders" (w.remote (listReqOf p tj "folders")).json =
         Except.ok entD →
       runModule p w =
         ⟨Except.ok { failed := false, changed := true,
                      code := some (w.remote (listReqOf p tj "folders")).status_code,
                      command := some (listCommand (applyDefaults p) "folders"),
                      listing := some (entF ++ entD) },
          [listReqOf p tj "files", listReqOf p tj "folders"], w.fs⟩) := by
  refine ⟨?_, ?_, ?_⟩
  · intro hF
    simp only [listReqOf, listHeaders] at hF
    simp [runModule, h1, h2, hm, runList, hF, listReqOf, listHeaders]
  · intro entF hFok hFpar hDko
    simp only [listReqOf, listHeaders] at hFok hFpar hDko
    simp [runModule, h1, h2, hm, runList, hFok, hFpar, hDko, listReqOf,
      listHeaders]
  · intro entF entD hFok hFpar hDok hDpar
    simp only [listReqOf, listHeaders] at hFok hFpar hDok hDpar
    simp [runModule, h1, h2, hm, runList, hFok, hFpar, hDok, hDpar,
      listReqOf, listHeaders]

/-- Witness for the amended C2: both sub-calls succeed with empty value
lists, two GETs are issued and the listing is the (empty) concatenation. -/
theorem list_calls_spec_witness :
    runModule listParams opOkWorld =
      ⟨Except.ok { failed := false, changed := true,
                   code := some (opOkWorld.remote
                     (listReqOf listParams (Json.str "TOKEN") "folders")).status_code,
                   command := some (listCommand (applyDefaults listParams) "folders"),
                   listing := some ([] ++ []) },
       [listReqOf listParams (Json.str "TOKEN") "files",
        listReqOf listParams (Json.str "TOKEN") "folders"],
       opOkWorld.fs⟩ :=
  (list_calls_spec listParams opOkWorld (Json.str "TOKEN") rfl rfl rfl).2.2
    [] [] rfl rfl rfl rfl

/-- The `delete` branch always issues exactly one request, with the
override header set. -/
theorem runDelete_calls (p : Params) (w : World)
    (hs : List (String × String)) :
    (runDelete p w hs).calls =
      [deleteRequest p (setHeader hs "X-HTTP-Method" "DELETE")] := by
  simp only [runDelete]
  split <;> rfl

/-- The `rmdir` branch always issues exactly one request, with the
override header set. -/
theorem runRmdir_calls (p : Params) (w : World)
    (hs : List (String × String)) :
    (runRmdir p w hs).calls =
      [rmdirRequest p (setHeader hs "X-HTTP-Method" "DELETE")] := by
  simp only [runRmdir]
  split <;> rfl

/-- The `get`/`metadata` branch always issues exactly one request, with the
headers passed through unchanged. -/
theorem runGetMeta_calls (p : Params) (w : World)
    (hs : List (String × String)) :
    (runGetMeta p w hs).calls = [getMetaRequest p hs] := by
  simp only [runGetMeta]
  repeat' split
  all_goals rfl

/-- C8: every `delete` and `rmdir` operation request is a POST carrying
`X-HTTP-Method: DELETE`, and no `get` or `metadata` operation request ever
carries an `X-HTTP-Method` header. -/
theorem override_header_discipline (p : Params) (w : World) (tj : Json)
    (h1 : w.tokenResponse.ok = true)
    (h2 : jsonIndex w.tokenResponse.json "access_token" = Except.ok tj) :
    ((p.method = Method.delete ∨ p.method = Method.rmdir) →
        ∀ r ∈ (runModule p w).calls,
          r.verb = HttpVerb.post ∧
            getHeader r.headers "X-HTTP-Method" = some "DELETE") ∧
    ((p.method = Method.get ∨ p.method = Method.metadata) →
        ∀ r ∈ (runModule p w).calls,
          getHeader r.headers "X-HTTP-Method" = none) := by
  constructor
  · rintro (hm | hm) r hr
    · simp [runModule, h1, h2, hm, runDelete_calls] at hr
      subst hr
      exact ⟨rfl, getHeader_override _⟩
    · simp [runModule, h1, h2, hm, runRmdir_calls] at hr
      subst hr
      exact ⟨rfl, getHeader_override _⟩
  · rintro (hm | hm) r hr
    · simp [runModule, h1, h2, hm, runGetMeta_calls] at hr
      subst hr
      exact getHeader_base _
    · simp [runModule, h1, h2, hm, runGetMeta_calls] at hr
      subst hr
      exact getHeader_base _

/-- Witness for C8: the single request of a concrete `delete` run is a
POST carrying the override header. -/
theorem override_header_discipline_witness :
    (deleteRequest (applyDefaults deleteParams)
        (setHeader (baseHeaders "TOKEN") "X-HTTP-Method" "DELETE")).verb
      = HttpVerb.post ∧
    getHeader (deleteRequest (applyDefaults deleteParams)
        (setHeader (baseHeaders "TOKEN") "X-HTTP-Method" "DELETE")).headers
      "X-HTTP-Method" = some "DELETE" :=
  (override_header_discipline deleteParams opOkWorld (Json.str "TOKEN")
      rfl rfl).1 (Or.inl rfl)
    (deleteRequest (applyDefaults deleteParams)
      (setHeader (baseHeaders "TOKEN") "X-HTTP-Method" "DELETE"))
    (List.mem_singleton.mpr rfl)

/-- The `put` branch with an existing local file issues exactly one
request carrying the file's bytes. -/
theorem runPut_calls (p : Params) (w : World) (hs : List (String × String))
    (lname : String) (bs : List Nat)
    (hn : p.local_file_name = some lname)
    (hfile : fsLookup w.fs (osPathJoin p.local_file_path lname) = some bs) :
    (runPut p w hs).calls = [putRequest p hs bs] := by
  simp only [runPut, hn, hfile]
  split <;> rfl

/-- C9: round trip.  A `put` run uploads exactly the bytes of the local
source file, and a `get` run whose remote (the mocked store) answers those
same bytes writes a local file with exactly that content. -/
theorem put_get_round_trip (bs : List Nat)
    (p1 : Params) (w1 : World) (tj1 : Json) (lname1 : String)
    (p2 : Params) (w2 : World) (tj2 : Json) (lname2 : String)
    (hm1 : p1.method = Method.put)
    (h11 : w1.tokenResponse.ok = true)
    (h12 : jsonIndex w1.tokenResponse.json "access_token" = Except.ok tj1)
    (hn1 : p1.local_file_name = some lname1)
    (hfile : fsLookup w1.fs (osPathJoin p1.local_file_path lname1) = some bs)
    (hm2 : p2.method = Method.get)
    (h21 : w2.tokenResponse.ok = true)
    (h22 : jsonIndex w2.tokenResponse.json "access_token" = Except.ok tj2)
    (hn2 : p2.local_file_name = some lname2)
    (hok : (w2.remote (getMetaRequest (applyDefaults p2)
              (baseHeaders (pyFormatJson tj2)))).ok = true)
    (hcontent : (w2.remote (getMetaRequest (applyDefaults p2)
              (baseHeaders (pyFormatJson tj2)))).content = bs)
    (hwrite : w2.writeErr (osPathJoin p2.local_file_path lname2) = none) :
    (runModule p1 w1).calls.map HttpRequest.body = [Body.bytes bs] ∧
      fsLookup (runModule p2 w2).fs
        (osPathJoin p2.local_file_path lname2) = some bs := by
  constructor
  · have hd := applyDefaults_local_file_name_of_some p1 lname1 hn1
    have hcalls : (runPut (applyDefaults p1) w1
          (baseHeaders (pyFormatJson tj1))).calls =
        [putRequest (applyDefaults p1) (baseHeaders (pyFormatJson tj1)) bs] :=
      runPut_calls _ _ _ lname1 bs hd (by simpa using hfile)
    simp [runModule, h11, h12, hm1, hcalls, putRequest]
  · have hd := applyDefaults_local_file_name_of_some p2 lname2 hn2
    simp [runModule, h21, h22, hm2, runGetMeta, hok, hd, hwrite, hcontent,
      fsLookup_fsWrite]

/-- A mocked-store world for the download leg: the remote answers the
bytes `[104, 105]` that the upload leg sent. -/
def roundTripGetWorld : World :=
  { tokenResponse := okTokenResponse,
    remote := fun _ =>
      { ok := true, status_code := 200, text := "stored",
        json := Json.null, content := [104, 105] },
    fs := [], writeErr := fun _ => none }

/-- Witness for C9 with content bytes `[104, 105]`. -/
theorem put_get_round_trip_witness :
    (runModule sampleParams opOkWorld).calls.map HttpRequest.body =
        [Body.bytes [104, 105]] ∧
      fsLookup (runModule getParams roundTripGetWorld).fs
        (osPathJoin getParams.local_file_path "test.txt") =
        some [104, 105] :=
  put_get_round_trip [104, 105] sampleParams opOkWorld (Json.str "TOKEN")
    "test.txt" getParams roundTripGetWorld (Json.str "TOKEN") "test.txt"
    rfl rfl rfl rfl rfl rfl rfl rfl rfl rfl rfl rfl

theorem runPut_changed_of_ok (p : Params) (w : World)
    (hs : List (String × String)) (r : ModuleResult)
    (h : (runPut p w hs).outcome = Except.ok r) (hf : r.failed = false) :
    r.changed = true := by
  simp only [runPut] at h
  repeat' split at h
  all_goals try (injection h with h)
  all_goals try subst h
  all_goals simp_all

theorem runGetMeta_changed_of_ok (p : Params) (w : World)
    (hs : List (String × String)) (r : ModuleResult)
    (h : (runGetMeta p w hs).outcome = Except.ok r) (hf : r.failed = false) :
    r.changed = true := by
  simp only [runGetMeta] at h
  repeat' split at h
  all_goals try (injection h with h)
  all_goals try subst h
  all_goals simp_all

theorem runDelete_changed_of_ok (p : Params) (w : World)
    (hs : List (String × String)) (r : ModuleResult)
    (h : (runDelete p w hs).outcome = Except.ok r) (hf : r.failed = false) :
    r.changed = true := by
  simp only [runDelete] at h
  repeat' split at h
  all_goals try (injection h with h)
  all_goals try subst h
  all_goals simp_all

theorem runList_changed_of_ok (p : Params) (w : World)
    (hs : List (String × String)) (r : ModuleResult)
    (h : (runList p w hs).outcome = Except.ok r) (hf : r.failed = false) :
    r.changed = true := by
  simp only [runList] at h
  repeat' split at h
  all_goals try (injection h with h)
  all_goals try subst h
  all_goals simp_all

theorem runMkdir_changed_of_ok (p : Params) (w : World)
    (hs : List (String × String)) (r : ModuleResult)
    (h : (runMkdir p w hs).outcome = Except.ok r) (hf : r.failed = false) :
    r.changed = true := by
  simp only [runMkdir] at h
  repeat' split at h
  all_goals try (injection h with h)
  all_goals try subst h
  all_goals simp_all

theorem runRmdir_changed_of_ok (p : Params) (w : World)
    (hs : List (String × String)) (r : ModuleResult)
    (h : (runRmdir p w hs).outcome = Except.ok r) (hf : r.failed = false) :
    r.changed = true := by
  simp only [runRmdir] at h
  repeat' split at h
  all_goals try (injection h with h)
  all_goals try subst h
  all_goals simp_all

/-- C10: every success report of any operation kind — the read-only
`get`, `metadata` and `list` included — carries `changed = true`; no
success path reports `changed = false`. -/
theorem success_implies_changed (p : Params) (w : World) (r : ModuleResult)
    (h : (runModule p w).outcome = Except.ok r) (hf : r.failed = false) :
    r.changed = true := by
  simp only [runModule] at h
  split at h
  · split at h
    · simp_all
    · split at h
      · exact runPut_changed_of_ok _ _ _ _ h hf
      · exact runGetMeta_changed_of_ok _ _ _ _ h hf
      · exact runGetMeta_changed_of_ok _ _ _ _ h hf
      · exact runDelete_changed_of_ok _ _ _ _ h hf
      · exact runList_changed_of_ok _ _ _ _ h hf
      · exact runMkdir_changed_of_ok _ _ _ _ h hf
      · exact runRmdir_changed_of_ok _ _ _ _ h hf
  · try (injection h with h)
    try subst h
    simp_all

/-- The success report of a concrete `delete` run. -/
def succResult : ModuleResult :=
  { failed := false, changed := true, code := some 200 }

/-- Witness for C10 at a concrete successful `delete` run. -/
theorem success_implies_changed_witness :
    (runModule deleteParams opOkWorld).outcome = Except.ok succResult ∧
      succResult.changed = true :=
  ⟨rfl, success_implies_changed deleteParams opOkWorld succResult rfl rfl⟩

end Sharepoint
